import Mathlib

namespace Statusline

/-- ANSI reset escape, `\033[0m` in the source. -/
def RESET : String := "\x1b[0m"

/-- ANSI dim escape, `\033[2m`. -/
def DIM : String := "\x1b[2m"

/-- ANSI green escape, `\033[32m`. -/
def GREEN : String := "\x1b[32m"

/-- ANSI yellow escape, `\033[33m`. -/
def YELLOW : String := "\x1b[33m"

/-- ANSI red escape, `\033[31m`. -/
def RED : String := "\x1b[31m"

/-- ANSI cyan escape, `\033[36m`. -/
def CYAN : String := "\x1b[36m"

/-- ANSI white escape, `\033[37m`. -/
def WHITE : String := "\x1b[37m"

/-- Separator between statusline segments: `SEP = f" {DIM}|{RESET} "`. -/
def SEP : String := " " ++ DIM ++ "|" ++ RESET ++ " "

/-- Python `sep.join(items)` semantics. -/
def sepJoin (sep : String) : List String → String
  | [] => ""
  | [x] => x
  | x :: y :: xs => x ++ sep ++ sepJoin sep (y :: xs)

/-- One-decimal-place rendering of the ratio `n / d` with the quotient rounded to
the nearest tenth.  The source computes `f"{n/d:.1f}"` over IEEE doubles; away from
exact ties (`10*n/d` a half-integer) that float formatting agrees with rounding the
exact rational, which is what we use (half rounds up).  No claim exercises a tie. -/
def oneDecimal (n d : Nat) : String :=
  let tenths := (10 * n + d / 2) / d
  toString (tenths / 10) ++ ("." ++ toString (tenths % 10))

/-- `fmt_tok` from the source: counts below 1000 verbatim, `k` abbreviation with one
decimal from 1000, `M` abbreviation from 1000000. -/
def fmtTok (n : Nat) : String :=
  if 1000000 ≤ n then oneDecimal n 1000000 ++ "M"
  else if 1000 ≤ n then oneDecimal n 1000 ++ "k"
  else toString n

/-- `usage_color` from the source: red at ≥90, yellow at ≥70, green below. -/
def usageColor (pct : Int) : String :=
  if 90 ≤ pct then RED
  else if 70 ≤ pct then YELLOW
  else GREEN

/-- Staged/modified/untracked counters accumulated over the `git status --porcelain`
output. -/
structure GitCounts where
  staged : Nat
  modified : Nat
  untracked : Nat
deriving DecidableEq

/-- One iteration of the porcelain classification loop of the source: `idx` and `wt`
are the first two characters of a porcelain entry.  Untracked entries (`idx = '?'`)
are counted apart; otherwise a non-blank, non-`?` index state counts as staged and a
non-blank, non-`?` worktree state counts as modified. -/
def countEntry (c : GitCounts) (idx wt : Char) : GitCounts :=
  if idx = '?' then { c with untracked := c.untracked + 1 }
  else
    let c1 := if idx ≠ ' ' ∧ idx ≠ '?' then { c with staged := c.staged + 1 } else c
    if wt ≠ ' ' ∧ wt ≠ '?' then { c1 with modified := c1.modified + 1 } else c1

/-- The whole porcelain loop: entries are modeled as pairs of status characters (the
source reads `line[0], line[1]` of each non-empty line). -/
def countPorcelain (entries : List (Char × Char)) : GitCounts :=
  entries.foldl (fun c e => countEntry c e.1 e.2) ⟨0, 0, 0⟩

/-- The payload the working-tree cache file stores: `branch|staged|modified|untracked|remote`. -/
structure GitData where
  branch : String
  staged : Nat
  modified : Nat
  untracked : Nat
  remote : String
deriving DecidableEq

/-- Rendering of `git_info` from a `GitData`: OSC-8 branch link when a remote is
known, then `+staged`, `~modified`, `?untracked` pieces, each only when non-zero. -/
def renderGit (g : GitData) : String :=
  let branchLink :=
    if g.remote ≠ "" then "\x1b]8;;" ++ g.remote ++ "\x07" ++ g.branch ++ "\x1b]8;;\x07"
    else g.branch
  let pieces := [branchLink]
    ++ (if g.staged ≠ 0 then [GREEN ++ "+" ++ toString g.staged ++ RESET] else [])
    ++ (if g.modified ≠ 0 then [YELLOW ++ "~" ++ toString g.modified ++ RESET] else [])
    ++ (if g.untracked ≠ 0 then [DIM ++ "?" ++ toString g.untracked ++ RESET] else [])
  sepJoin " " pieces

/-- Builds the cache payload out of a successful refresh: branch name, classified
porcelain entries, normalized remote. -/
def gitDataOfRefresh (r : String × List (Char × Char) × String) : GitData :=
  let c := countPorcelain r.2.1
  ⟨r.1, c.staged, c.modified, c.untracked, r.2.2⟩

/-- Result of the working-tree provider: the rendered `git_info` string, whether the
refresh queries (branch/status subprocesses) ran, and whether the cache file was
written. -/
structure GitOutcome where
  info : String
  refreshed : Bool
  wrote : Bool
deriving DecidableEq

/-- The working-tree provider of the source (lines 137–197).  `inTree` is the result
of the `git rev-parse --git-dir` precondition check (which runs unconditionally);
`cacheExists`/`age` describe the cache file; `cached` is its parsed content (`none`
when reading or parsing the file raises); `refresh` is `none` when any of the
branch/status queries raises.  On a failed refresh the source sets `git_info = ''`
in its `except` handler — it does NOT read the stale cache file. -/
def gitProvider (inTree cacheExists : Bool) (age : Nat)
    (cached : Option GitData) (refresh : Option (String × List (Char × Char) × String)) :
    GitOutcome :=
  if inTree then
    if cacheExists = false ∨ 5 < age then
      match refresh with
      | some r => ⟨renderGit (gitDataOfRefresh r), true, true⟩
      | none => ⟨"", true, false⟩
    else
      match cached with
      | some g => ⟨renderGit g, false, false⟩
      | none => ⟨"", false, false⟩
  else ⟨"", false, false⟩

/-- Two consecutive runs of the working-tree provider starting from no cache file,
`gap` seconds apart; the first run's written payload (round-tripped through the
`branch|…` cache format) is what the second run finds on disk. -/
def gitTwice (inTree : Bool) (refresh : Option (String × List (Char × Char) × String))
    (gap : Nat) : GitOutcome × GitOutcome :=
  let r1 := gitProvider inTree false 0 none refresh
  let r2 :=
    if r1.wrote then gitProvider inTree true gap (refresh.map gitDataOfRefresh) refresh
    else gitProvider inTree false gap none refresh
  (r1, r2)

/-- The `extra_usage` object of the usage-API response.  The amounts are transmitted
in minor currency units (hundredths of a dollar) as the source divides them by 100;
numeric JSON values are modeled as integers, which is what the endpoint sends. -/
structure ExtraUsage where
  is_enabled : Bool
  used_credits : Int
  monthly_limit : Int
deriving DecidableEq

/-- One rolling-window object (`five_hour` / `seven_day`) of the usage-API response.
`utilization` is modeled as the integer the source obtains from
`round(float(... or 0))`. -/
structure WindowUsage where
  utilization : Int
  resets_at : Option String
deriving DecidableEq

/-- The usage-API response body, i.e. the payload of the usage cache file. -/
structure UsagePayload where
  five_hour : Option WindowUsage
  seven_day : Option WindowUsage
  extra_usage : Option ExtraUsage
deriving DecidableEq

/-- Result of the usage provider: the `usage_data` used for rendering, whether the
refresh branch ran (credential lookup performed), whether the network request was
issued, and whether the cache file was written. -/
structure UsageOutcome where
  payload : Option UsagePayload
  refreshed : Bool
  fetched : Bool
  wrote : Bool
deriving DecidableEq

/-- The refresh branch of the usage provider (source lines 90–131).  `creds` models
the credential lookup: `none` when reading/parsing the credential sources raises,
`some none` when no token is found (no exception — the source then leaves
`usage_data = None` without touching the stale cache), `some (some t)` a bearer
token.  `fetch t = none` models the network call raising; the `except` handler then
falls back to the existing cache file's parsed content. -/
def usageRefresh (cacheExists : Bool) (cached : Option UsagePayload)
    (creds : Option (Option String)) (fetch : String → Option UsagePayload) :
    UsageOutcome :=
  match creds with
  | none => ⟨if cacheExists then cached else none, true, false, false⟩
  | some none => ⟨none, true, false, false⟩
  | some (some t) =>
    match fetch t with
    | some p => ⟨some p, true, true, true⟩
    | none => ⟨if cacheExists then cached else none, true, true, false⟩

/-- The usage provider of the source (lines 81–131).  `cacheExists`/`age` describe
the cache file; `cached` is its JSON parse (`none` = malformed).  A fresh cache is
read without refreshing; when that read raises on malformed JSON the `except`
handler re-reads the same file (failing again) and yields no data — the refresh
branch is never entered in that case. -/
def usageProvider (cacheExists : Bool) (age : Nat) (cached : Option UsagePayload)
    (creds : Option (Option String)) (fetch : String → Option UsagePayload) :
    UsageOutcome :=
  if cacheExists then
    if age < 60 then
      match cached with
      | some p => ⟨some p, false, false, false⟩
      | none => ⟨none, false, false, false⟩
    else usageRefresh true cached creds fetch
  else usageRefresh false cached creds fetch

/-- Two consecutive runs of the usage provider starting from no cache file, `gap`
seconds apart; a successful first refresh leaves its payload on disk for the second
run. -/
def usageTwice (creds : Option (Option String)) (fetch : String → Option UsagePayload)
    (gap : Nat) : UsageOutcome × UsageOutcome :=
  let r1 := usageProvider false 0 none creds fetch
  let r2 :=
    if r1.wrote then usageProvider true gap r1.payload creds fetch
    else usageProvider false gap none creds fetch
  (r1, r2)

/-- Value of a decimal digit character. -/
def digitVal (c : Char) : Option Nat :=
  if c.isDigit then some (c.toNat - 48) else none

/-- Two decimal digit characters as a number. -/
def num2 (a b : Char) : Option Nat := do
  pure ((← digitVal a) * 10 + (← digitVal b))

/-- Four decimal digit characters as a number. -/
def num4 (a b c d : Char) : Option Nat := do
  pure (((← digitVal a) * 10 + (← digitVal b)) * 100 + ((← digitVal c) * 10 + (← digitVal d)))

/-- Gregorian leap-year test. -/
def isLeap (y : Nat) : Bool :=
  decide ((y % 4 = 0 ∧ ¬ y % 100 = 0) ∨ y % 400 = 0)

/-- Number of days of month `m` in year `y`. -/
def monthLen (y m : Nat) : Nat :=
  if m = 2 then (if isLeap y then 29 else 28)
  else if m = 4 ∨ m = 6 ∨ m = 9 ∨ m = 11 then 30
  else 31

/-- Validity of a calendar date, as `datetime.fromisoformat` enforces it. -/
def validDate (y m d : Nat) : Bool :=
  decide (1 ≤ y ∧ 1 ≤ m ∧ m ≤ 12 ∧ 1 ≤ d ∧ d ≤ monthLen y m)

/-- The parsed timestamp: calendar fields plus the timezone offset in minutes
(`none` for a naive timestamp, which `astimezone` interprets as local time). -/
structure DT where
  year : Nat
  month : Nat
  day : Nat
  hour : Nat
  minute : Nat
  second : Nat
  tz : Option Int
deriving DecidableEq

/-- Builds and validates a `DT` from the digit characters of an ISO string. -/
def mkDT (a b c d e f g h i j k m n o : Char) (tz : Option Int) : Option DT := do
  let y ← num4 a b c d
  let mo ← num2 e f
  let dy ← num2 g h
  let hh ← num2 i j
  let mi ← num2 k m
  let ss ← num2 n o
  if validDate y mo dy ∧ hh < 24 ∧ mi < 60 ∧ ss < 60 then
    some ⟨y, mo, dy, hh, mi, ss, tz⟩
  else none

/-- Parse of the ISO-8601 forms `datetime.fromisoformat` meets in this program:
`YYYY-MM-DDTHH:MM:SS` (naive) and `YYYY-MM-DDTHH:MM:SS±HH:MM` (aware; the `Z`
suffix has already been rewritten to `+00:00` by the caller, as in the source).
Anything else is malformed and parses to `none`. -/
def parseIsoChars (l : List Char) : Option DT :=
  match l with
  | [a, b, c, d, '-', e, f, '-', g, h, 'T', i, j, ':', k, m, ':', n, o] =>
    mkDT a b c d e f g h i j k m n o none
  | [a, b, c, d, '-', e, f, '-', g, h, 'T', i, j, ':', k, m, ':', n, o, sg, p, q, ':', r, s] => do
    let oh ← num2 p q
    let om ← num2 r s
    if oh < 24 ∧ om < 60 then
      if sg = '+' then mkDT a b c d e f g h i j k m n o (some ((oh : Int) * 60 + om))
      else if sg = '-' then mkDT a b c d e f g h i j k m n o (some (-((oh : Int) * 60 + om)))
      else none
    else none
  | _ => none

/-- The source's `iso.replace("Z", "+00:00")`, specialized to the single-character
pattern the source always passes. -/
def replaceZ : List Char → List Char
  | [] => []
  | c :: rest =>
    if c = 'Z' then '+' :: '0' :: '0' :: ':' :: '0' :: '0' :: replaceZ rest
    else c :: replaceZ rest

/-- Days since 1970-01-01 of a civil date (proleptic Gregorian); floor divisions are
written with `Int.ediv`, which is floor division for the positive divisors used. -/
def daysFromCivil (y m d : Int) : Int :=
  let y2 := if m ≤ 2 then y - 1 else y
  let era := Int.ediv y2 400
  let yoe := y2 - era * 400
  let doy := Int.ediv (153 * (m + (if 2 < m then -3 else 9)) + 2) 5 + d - 1
  let doe := yoe * 365 + Int.ediv yoe 4 - Int.ediv yoe 100 + doy
  era * 146097 + doe - 719468

/-- Civil date (year, month, day) from days since 1970-01-01; inverse of
`daysFromCivil`. -/
def civilFromDays (z0 : Int) : Int × Int × Int :=
  let z := z0 + 719468
  let era := Int.ediv z 146097
  let doe := z - era * 146097
  let yoe := Int.ediv (doe - Int.ediv doe 1460 + Int.ediv doe 36524 - Int.ediv doe 146096) 365
  let y := yoe + era * 400
  let doy := doe - (365 * yoe + Int.ediv yoe 4 - Int.ediv yoe 100)
  let mp := Int.ediv (5 * doy + 2) 153
  let d := doy - Int.ediv (153 * mp + 2) 5 + 1
  let m := mp + (if mp < 10 then 3 else -9)
  (if m ≤ 2 then y + 1 else y, m, d)

/-- Minute count (on the civil timeline) of the parsed timestamp once converted to
the viewer's timezone, `localOff` minutes east of UTC.  A naive timestamp is already
local, so the conversion leaves it unchanged. -/
def localCivilMinutes (dt : DT) (localOff : Int) : Int :=
  daysFromCivil dt.year dt.month dt.day * 1440 + dt.hour * 60 + dt.minute
    - (dt.tz.getD localOff) + localOff

/-- Two-digit zero-padded minute rendering, `%M`. -/
def twoDig (n : Nat) : String :=
  (if n < 10 then "0" else "") ++ toString n

/-- `%-I:%M%p` lowercased, over a minute-of-day `t < 1440`: 12-hour clock hour
without leading zero, zero-padded minutes, `am`/`pm`. -/
def fmt12h (t : Nat) : String :=
  let h := t / 60
  let m := t % 60
  let h12 := if h % 12 = 0 then 12 else h % 12
  (toString h12 ++ (":" ++ twoDig m)) ++ (if h < 12 then "am" else "pm")

/-- Lowercased `%b` month abbreviation. -/
def monthAbbrev (m : Int) : String :=
  if m = 1 then "jan" else if m = 2 then "feb" else if m = 3 then "mar"
  else if m = 4 then "apr" else if m = 5 then "may" else if m = 6 then "jun"
  else if m = 7 then "jul" else if m = 8 then "aug" else if m = 9 then "sep"
  else if m = 10 then "oct" else if m = 11 then "nov" else "dec"

/-- `fmt_reset` from the source: empty input renders empty; the ISO string (with
`Z` rewritten to `+00:00`) is parsed, converted to the viewer's timezone
(`localOff` minutes east of UTC, the role `astimezone()` plays), and formatted as
`%-I:%M%p` for the `"time"` style or `%b %-d, %-I:%M%p` otherwise, lowercased;
a parse failure renders empty (the `except` handler). -/
def fmtReset (iso : String) (style : String) (localOff : Int) : String :=
  if iso = "" then ""
  else
    match parseIsoChars (replaceZ iso.data) with
    | none => ""
    | some dt =>
      let lam := localCivilMinutes dt localOff
      let tod := (Int.emod lam 1440).toNat
      if style = "time" then fmt12h tod
      else
        let ymd := civilFromDays (Int.ediv lam 1440)
        monthAbbrev ymd.2.1 ++ (" " ++ toString ymd.2.2 ++ (", " ++ fmt12h tod))

/-- Boolean list-prefix test (structural, so that concrete instances evaluate in the
kernel). -/
def listPrefixOf : List Char → List Char → Bool
  | [], _ => true
  | _ :: _, [] => false
  | a :: as, b :: bs => if a = b then listPrefixOf as bs else false

/-- Boolean substring test over the underlying character lists. -/
def hasSub (sub : List Char) : List Char → Bool
  | [] => listPrefixOf sub []
  | c :: rest => if listPrefixOf sub (c :: rest) then true else hasSub sub rest

/-- `s` contains `sub` as a substring. -/
def containsStr (s sub : String) : Bool := hasSub sub.data s.data

/-- `model = data.get('model', {}).get('display_name', '?')`: a missing model object
or display name defaults to `"?"`. -/
def modelName (displayName : Option String) : String := displayName.getD "?"

/-- `cwd = data.get('workspace', {}).get('current_dir') or data.get('cwd', '')`:
an absent or empty `current_dir` falls back to the `cwd` field, else `""`. -/
def effCwd (wsDir cwdField : Option String) : String :=
  match wsDir with
  | some s => if s = "" then cwdField.getD "" else s
  | none => cwdField.getD ""

/-- `path_short`: a leading home-directory prefix is replaced by `~`. -/
def pathShort (cwd home : String) : String :=
  if listPrefixOf home.data cwd.data then ⟨'~' :: cwd.data.drop home.data.length⟩
  else cwd

/-- `line1_items` (source lines 202–207): model segment, path segment, and — only
when `git_info` is non-empty — the git segment, to which the added and removed
line counts piece is joined only when one of the counters is non-zero. -/
def line1Items (model path_short git_info : String) (lines_add lines_rm : Nat) :
    List String :=
  [WHITE ++ model ++ RESET, path_short] ++
    (if git_info ≠ "" then
      [sepJoin SEP ([git_info] ++
        (if lines_add ≠ 0 ∨ lines_rm ≠ 0 then
          [GREEN ++ "+" ++ toString lines_add ++ RESET ++ "/"
            ++ RED ++ "-" ++ toString lines_rm ++ RESET]
        else []))]
    else [])

/-- The `context:` segment of line 2, with the percentage badge colored by
`usageColor`. -/
def contextItem (used_tok total_sz : Nat) (pct_int : Int) : String :=
  "context: " ++ (fmtTok used_tok ++ "/" ++ fmtTok total_sz ++ " "
    ++ usageColor pct_int ++ toString pct_int ++ "%" ++ RESET)

/-- A rolling-window segment of line 2 (`current:` / `weekly:`): colored percentage,
followed by ` resets …` only when the reset timestamp formats non-empty.  A missing
window object defaults to utilization 0 and no reset timestamp
(`usage_data.get(…) or {}`). -/
def windowBody (w : Option WindowUsage) (style : String) (localOff : Int) : String :=
  let ww := w.getD ⟨0, none⟩
  let resetStr :=
    match ww.resets_at with
    | none => ""
    | some s => fmtReset s style localOff
  let base := usageColor ww.utilization ++ toString ww.utilization ++ "%" ++ RESET
  if resetStr ≠ "" then base ++ (" resets " ++ resetStr) else base

/-- A rolling-window segment: its label followed by the body. -/
def windowStr (label : String) (w : Option WindowUsage) (style : String)
    (localOff : Int) : String :=
  label ++ windowBody w style localOff

/-- Exact `%.2f` rendering of `cents / 100` dollars, negatives included; the
source's float round-trip (`round(x/100, 2)` then `f"{…:.2f}"`) is exact for
integer minor-currency amounts of this magnitude. -/
def fmtCents2 (cents : Int) : String :=
  (if cents < 0 then "-" else "")
    ++ toString (cents.natAbs / 100)
    ++ ("." ++ (if cents.natAbs % 100 < 10 then "0" else "") ++ toString (cents.natAbs % 100))

/-- The `extra usage:` segment: remaining dollars are
`monthly_limit/100 − used_credits/100`, two decimal places. -/
def extraItem (e : ExtraUsage) : String :=
  "extra usage: $" ++ (fmtCents2 (e.monthly_limit - e.used_credits) ++ " left")

/-- `line2_items` (source lines 212–240): the context segment always; when usage
data is present also the `current:` and `weekly:` segments, and the `extra usage:`
segment only when the provider marks it enabled. -/
def line2Items (used_tok total_sz : Nat) (pct_int : Int)
    (usage : Option UsagePayload) (localOff : Int) : List String :=
  [contextItem used_tok total_sz pct_int] ++
    match usage with
    | none => []
    | some u =>
      [windowStr "current: " u.five_hour "time" localOff,
       windowStr "weekly: " u.seven_day "datetime" localOff] ++
        match u.extra_usage with
        | none => []
        | some e => if e.is_enabled then [extraItem e] else []

/-- The complete standard output of the program: line 1, a newline (written
unconditionally at source line 242), then line 2. -/
def renderLines (modelD wsDir cwdF : Option String) (home : String)
    (pct_int : Int) (used_tok total_sz lines_add lines_rm : Nat)
    (usage : Option UsagePayload) (git_info : String) (localOff : Int) : String :=
  sepJoin SEP (line1Items (modelName modelD) (pathShort (effCwd wsDir cwdF) home)
      git_info lines_add lines_rm)
    ++ "\n"
    ++ sepJoin SEP (line2Items used_tok total_sz pct_int usage localOff)

/-- The program's output on the end-to-end input of the spec: model `Opus`,
`used_percentage` 45, window size 200000, 90000 input tokens, working directory
`/home/x/proj` with home `/home/x`; no cache files and no working tree leave the
usage payload absent and `git_info` empty.  (`cost.total_cost_usd` is consumed
nowhere in the source, so it does not appear among the parameters.) -/
def c1Output : String :=
  renderLines (some "Opus") (some "/home/x/proj") none "/home/x"
    45 90000 200000 0 0 none "" 0

/-- Checks whether one of the rendered segments is the overage segment (starts with
`extra usage:`). -/
def hasExtraSegment (items : List String) : Bool :=
  items.any fun s => listPrefixOf ("extra usage:".data) s.data

/-- Concatenating strings concatenates their character lists. -/
theorem data_append (a b : String) : (a ++ b).data = a.data ++ b.data := by
  cases a; cases b; rfl

/-- Head character of a concatenation whose left part is known. -/
theorem cons_data_append (c : Char) (cs : List Char) (s X : String)
    (hs : s.data = c :: cs) : (s ++ X).data = c :: (cs ++ X.data) := by
  rw [data_append, hs]; rfl

/-- A string starting with a character other than `e` does not start with
`extra usage:`. -/
theorem listPrefixOf_extra_head (c : Char) (l : List Char) (hc : ¬ c = 'e') :
    listPrefixOf ("extra usage:".data) (c :: l) = false := by
  show listPrefixOf ('e' :: "xtra usage:".data) (c :: l) = false
  unfold listPrefixOf
  rw [if_neg fun h => hc h.symm]

/-- The context segment starts with `c`. -/
theorem contextItem_head (used tot : Nat) (pct : Int) :
    (contextItem used tot pct).data
      = 'c' :: ("ontext: ".data ++ (fmtTok used ++ "/" ++ fmtTok tot ++ " "
          ++ usageColor pct ++ toString pct ++ "%" ++ RESET).data) :=
  cons_data_append 'c' _ "context: " _ rfl

/-- A window segment starts with its label's head character. -/
theorem windowStr_head (c : Char) (cs : List Char) (label : String)
    (hs : label.data = c :: cs) (w : Option WindowUsage) (style : String) (off : Int) :
    (windowStr label w style off).data = c :: (cs ++ (windowBody w style off).data) :=
  cons_data_append c cs label _ hs

/-- The overage segment starts with `extra usage:` whatever the amount rendered. -/
theorem extraItem_prefixed (X : String) :
    listPrefixOf ("extra usage:".data) ("extra usage: $" ++ X).data = true := by
  rw [data_append]; rfl

/-- The refresh branch of the usage provider always reports that it ran. -/
theorem usageRefresh_runs (ce : Bool) (cached : Option UsagePayload)
    (creds : Option (Option String)) (fetch : String → Option UsagePayload) :
    (usageRefresh ce cached creds fetch).refreshed = true := by
  unfold usageRefresh
  rcases creds with _ | (_ | t)
  · rfl
  · rfl
  · rcases hf : fetch t with _ | p <;> simp [hf]

/-- The 12-hour rendering always consists of an hour in 1–12 (hence no leading
zero), a zero-padded minute below 60, and a lowercase `am`/`pm` suffix. -/
theorem fmt12h_shape (t : Nat) :
    ∃ h12 m s, 1 ≤ h12 ∧ h12 ≤ 12 ∧ m < 60 ∧ (s = "am" ∨ s = "pm") ∧
      fmt12h t = (toString h12 ++ (":" ++ twoDig m)) ++ s := by
  refine ⟨if t / 60 % 12 = 0 then 12 else t / 60 % 12, t % 60,
    if t / 60 < 12 then "am" else "pm", ?_, ?_, ?_, ?_, rfl⟩
  · split <;> omega
  · split <;> omega
  · omega
  · split
    · exact Or.inl rfl
    · exact Or.inr rfl

/-- Claim C1 is false on the code: on the end-to-end session input (model `Opus`,
45% of a 200000-token window with 90000 input tokens, cost 1.23, directory
`/home/x/proj` under home `/home/x`, no caches, no working tree) the standard
output is NOT a single line — it contains a newline, because line 2 (the context
segment) is written unconditionally — and the cost value `$1.23` occurs nowhere in
it, because the source never reads `cost.total_cost_usd`. -/
theorem c1_counterexample :
    c1Output.data.count '\n' = 1 ∧ containsStr c1Output "$1.23" = false := by
  exact ⟨by decide, by decide⟩

/-- Claim C1 (amended): on that input the program writes exactly two lines;
line 1 contains `Opus` and `~/proj`, line 2 contains `90.0k/200.0k` and the `45%`
badge in the nominal-severity (green) color, and `$1.23` appears nowhere. -/
theorem c1_two_lines :
    ∃ l1 l2 : String,
      c1Output = l1 ++ ("\n" ++ l2) ∧
      l1.data.count '\n' = 0 ∧ l2.data.count '\n' = 0 ∧
      containsStr l1 "Opus" = true ∧ containsStr l1 "~/proj" = true ∧
      containsStr l2 "90.0k/200.0k" = true ∧
      containsStr l2 (GREEN ++ "45%" ++ RESET) = true ∧
      containsStr c1Output "$1.23" = false := by
  refine ⟨"\x1b[37mOpus\x1b[0m \x1b[2m|\x1b[0m ~/proj",
    "context: 90.0k/200.0k \x1b[32m45%\x1b[0m", ?_, ?_, ?_, ?_, ?_, ?_, ?_, ?_⟩
    <;> decide

/-- Claim C2 is false on the code for the working-tree provider: with a prior
cache file present (branch `main`, counts 1/2/3) but stale, and the refresh
queries failing, the rendered `git_info` is the empty string, not the cached
payload's rendering (which is non-empty). -/
theorem c2_counterexample :
    (gitProvider true true 10 (some ⟨"main", 1, 2, 3, ""⟩) none).info = "" ∧
    renderGit ⟨"main", 1, 2, 3, ""⟩ ≠ "" := by
  exact ⟨rfl, by decide⟩

/-- Claim C2 (amended): the usage-quota provider does fall back to the prior cache
payload when its refresh fails (credential lookup raising, or the network call
raising), and no exception propagates; the working-tree provider never falls back
to a stale cache — on a failed refresh it renders the empty segment, again without
propagating. -/
theorem c2_stale_fallback :
    (∀ (age : Nat) (p : UsagePayload) (fetch : String → Option UsagePayload),
      60 ≤ age →
      usageProvider true age (some p) none fetch = ⟨some p, true, false, false⟩) ∧
    (∀ (age : Nat) (p : UsagePayload) (t : String)
        (fetch : String → Option UsagePayload),
      60 ≤ age → fetch t = none →
      usageProvider true age (some p) (some (some t)) fetch
        = ⟨some p, true, true, false⟩) ∧
    (∀ (t : String) (fetch : String → Option UsagePayload),
      fetch t = none →
      usageProvider false 0 none (some (some t)) fetch = ⟨none, true, true, false⟩) ∧
    (∀ (age : Nat) (cached : Option GitData), 5 < age →
      gitProvider true true age cached none = ⟨"", true, false⟩) := by
  refine ⟨?_, ?_, ?_, ?_⟩
  · intro age p fetch h
    unfold usageProvider usageRefresh
    rw [if_pos rfl, if_neg (by omega)]
    rfl
  · intro age p t fetch h hf
    unfold usageProvider usageRefresh
    rw [if_pos rfl, if_neg (by omega)]
    simp [hf]
  · intro t fetch hf
    unfold usageProvider usageRefresh
    simp [hf]
  · intro age cached h
    unfold gitProvider
    rw [if_pos rfl, if_pos (Or.inr h)]

/-- Witness for the amended C2 at concrete inputs. -/
theorem c2_stale_fallback_witness :
    usageProvider true 120 (some ⟨none, none, none⟩) none (fun _ => none)
        = ⟨some ⟨none, none, none⟩, true, false, false⟩ ∧
    usageProvider true 120 (some ⟨none, none, none⟩) (some (some "tok")) (fun _ => none)
        = ⟨some ⟨none, none, none⟩, true, true, false⟩ ∧
    gitProvider true true 10 (some ⟨"main", 0, 0, 0, ""⟩) none = ⟨"", true, false⟩ :=
  ⟨c2_stale_fallback.1 120 ⟨none, none, none⟩ (fun _ => none) (by omega),
   c2_stale_fallback.2.1 120 ⟨none, none, none⟩ "tok" (fun _ => none) (by omega) rfl,
   c2_stale_fallback.2.2.2 10 (some ⟨"main", 0, 0, 0, ""⟩) (by omega)⟩

/-- Claim C3: a cache file within its freshness window (60 s for the usage source
under `age < 60`, 5 s for the working-tree source under `age ≤ 5`, matching the
source's comparisons) is returned as-is — the refresh is not invoked, nothing is
fetched and nothing is written — and consequently two invocations within the
window, starting from no cache with a succeeding refresh, run the refresh exactly
once (the second call is a pure cache hit). -/
theorem c3_cache_hit :
    (∀ (age : Nat) (p : UsagePayload) (creds : Option (Option String))
        (fetch : String → Option UsagePayload),
      age < 60 →
      usageProvider true age (some p) creds fetch = ⟨some p, false, false, false⟩) ∧
    (∀ (age : Nat) (g : GitData)
        (refresh : Option (String × List (Char × Char) × String)),
      age ≤ 5 →
      gitProvider true true age (some g) refresh = ⟨renderGit g, false, false⟩) ∧
    (∀ (t : String) (p : UsagePayload) (fetch : String → Option UsagePayload)
        (gap : Nat),
      fetch t = some p → gap < 60 →
      usageTwice (some (some t)) fetch gap
        = (⟨some p, true, true, true⟩, ⟨some p, false, false, false⟩)) ∧
    (∀ (rd : String × List (Char × Char) × String) (gap : Nat),
      gap ≤ 5 →
      gitTwice true (some rd) gap
        = (⟨renderGit (gitDataOfRefresh rd), true, true⟩,
           ⟨renderGit (gitDataOfRefresh rd), false, false⟩)) := by
  refine ⟨?_, ?_, ?_, ?_⟩
  · intro age p creds fetch h
    unfold usageProvider
    rw [if_pos rfl, if_pos h]
  · intro age g refresh h
    unfold gitProvider
    rw [if_pos rfl, if_neg (by simp; omega)]
  · intro t p fetch gap hf hgap
    unfold usageTwice usageProvider usageRefresh
    simp [hf, hgap]
  · intro rd gap hgap
    unfold gitTwice gitProvider
    simp [Option.map]
    omega

/-- Witness for C3 at concrete inputs. -/
theorem c3_cache_hit_witness :
    usageProvider true 10 (some ⟨none, none, none⟩) none (fun _ => none)
        = ⟨some ⟨none, none, none⟩, false, false, false⟩ ∧
    gitProvider true true 3 (some ⟨"main", 0, 0, 0, ""⟩) none
        = ⟨renderGit ⟨"main", 0, 0, 0, ""⟩, false, false⟩ ∧
    usageTwice (some (some "tok")) (fun _ => some ⟨none, none, none⟩) 30
        = (⟨some ⟨none, none, none⟩, true, true, true⟩,
           ⟨some ⟨none, none, none⟩, false, false, false⟩) ∧
    gitTwice true (some ("main", [], "")) 2
        = (⟨renderGit (gitDataOfRefresh ("main", [], "")), true, true⟩,
           ⟨renderGit (gitDataOfRefresh ("main", [], "")), false, false⟩) :=
  ⟨c3_cache_hit.1 10 ⟨none, none, none⟩ none (fun _ => none) (by omega),
   c3_cache_hit.2.1 3 ⟨"main", 0, 0, 0, ""⟩ none (by omega),
   c3_cache_hit.2.2.1 "tok" ⟨none, none, none⟩ (fun _ => some ⟨none, none, none⟩)
     30 rfl (by omega),
   c3_cache_hit.2.2.2 ("main", [], "") 2 (by omega)⟩

/-- Claim C4: porcelain classification — index `M` with blank worktree state counts
staged-only; blank index with worktree `M` counts modified-only; index `?` counts
untracked and never staged or modified whatever the worktree state; and any entry
whose two states are both non-blank and non-`?` counts as both staged and
modified. -/
theorem c4_porcelain_classification :
    countEntry ⟨0, 0, 0⟩ 'M' ' ' = ⟨1, 0, 0⟩ ∧
    countEntry ⟨0, 0, 0⟩ ' ' 'M' = ⟨0, 1, 0⟩ ∧
    (∀ wt, countEntry ⟨0, 0, 0⟩ '?' wt = ⟨0, 0, 1⟩) ∧
    (∀ idx wt, idx ≠ ' ' → idx ≠ '?' → wt ≠ ' ' → wt ≠ '?' →
      countEntry ⟨0, 0, 0⟩ idx wt = ⟨1, 1, 0⟩) := by
  refine ⟨by decide, by decide, ?_, ?_⟩
  · intro wt
    simp [countEntry]
  · intro idx wt h1 h2 h3 h4
    simp [countEntry, h1, h2, h3, h4]

/-- Witness for C4 at a concrete both-staged-and-modified entry. -/
theorem c4_porcelain_witness :
    countEntry ⟨0, 0, 0⟩ 'A' 'D' = ⟨1, 1, 0⟩ :=
  c4_porcelain_classification.2.2.2 'A' 'D' (by decide) (by decide) (by decide)
    (by decide)

/-- Claim C5 is false on the code: with the usage cache file present and fresh
(age 0) but malformed (its parse is `none`), and even with a working token and a
reachable endpoint, the provider neither attempts a refresh nor yields usage data —
the parse exception skips the refresh branch and the stale-fallback re-read fails
on the same malformed file. -/
theorem c5_counterexample :
    (usageProvider true 0 none (some (some "tok"))
        (fun _ => some ⟨none, none, none⟩)).refreshed = false ∧
    (usageProvider true 0 none (some (some "tok"))
        (fun _ => some ⟨none, none, none⟩)).payload = none :=
  ⟨rfl, rfl⟩

/-- Claim C5 (amended): a fresh-but-malformed usage cache yields no usage data and
no refresh attempt (the exception is swallowed); only a missing or stale cache file
leads to a refresh attempt. -/
theorem c5_malformed_cache :
    (∀ (age : Nat) (creds : Option (Option String))
        (fetch : String → Option UsagePayload),
      age < 60 →
      usageProvider true age none creds fetch = ⟨none, false, false, false⟩) ∧
    (∀ (age : Nat) (creds : Option (Option String))
        (fetch : String → Option UsagePayload),
      60 ≤ age →
      (usageProvider true age none creds fetch).refreshed = true) ∧
    (∀ (creds : Option (Option String)) (fetch : String → Option UsagePayload)
        (age : Nat),
      (usageProvider false age none creds fetch).refreshed = true) := by
  refine ⟨?_, ?_, ?_⟩
  · intro age creds fetch h
    unfold usageProvider
    rw [if_pos rfl, if_pos h]
  · intro age creds fetch h
    unfold usageProvider
    rw [if_pos rfl, if_neg (by omega)]
    exact usageRefresh_runs true none creds fetch
  · intro creds fetch age
    unfold usageProvider
    rw [if_neg (by simp)]
    exact usageRefresh_runs false none creds fetch

/-- Witness for the amended C5 at concrete inputs. -/
theorem c5_malformed_cache_witness :
    usageProvider true 30 none (some none) (fun _ => none) = ⟨none, false, false, false⟩ ∧
    (usageProvider true 90 none (some none) (fun _ => none)).refreshed = true :=
  ⟨c5_malformed_cache.1 30 (some none) (fun _ => none) (by omega),
   c5_malformed_cache.2.1 90 (some none) (fun _ => none) (by omega)⟩

/-- Claim C6: with any optional field absent the pipeline is total (these are plain
Lean functions) and line 1 still begins with the model segment — `?` when the model
name is absent — followed by the path segment; with no usage data line 2 is just
the context segment. -/
theorem c6_optional_fields :
    modelName none = "?" ∧
    (∀ (wsDir cwdF : Option String) (home git : String) (a r : Nat),
      (line1Items (modelName none) (pathShort (effCwd wsDir cwdF) home) git a r).take 2
        = [WHITE ++ "?" ++ RESET, pathShort (effCwd wsDir cwdF) home]) ∧
    (∀ (used tot : Nat) (pct off : Int),
      line2Items used tot pct none off = [contextItem used tot pct]) := by
  refine ⟨rfl, ?_, ?_⟩
  · intro wsDir cwdF home git a r
    rfl
  · intro used tot pct off
    rfl

/-- Claim C7: token-count formatting — 950 renders verbatim, 1500 as `1.5k`,
2300000 as `2.3M`; in general anything below 1000 renders verbatim, anything in
[1000, 1000000) as a one-decimal number with a `k` suffix, and anything from
1000000 as a one-decimal number with an `M` suffix. -/
theorem c7_fmt_tok :
    fmtTok 950 = "950" ∧ fmtTok 1500 = "1.5k" ∧ fmtTok 2300000 = "2.3M" ∧
    (∀ n : Nat, n < 1000 → fmtTok n = toString n) ∧
    (∀ n, 1000 ≤ n → n < 1000000 →
      ∃ a b : Nat, b < 10 ∧ fmtTok n = (toString a ++ ("." ++ toString b)) ++ "k") ∧
    (∀ n, 1000000 ≤ n →
      ∃ a b : Nat, b < 10 ∧ fmtTok n = (toString a ++ ("." ++ toString b)) ++ "M") := by
  refine ⟨by decide, by decide, by decide, ?_, ?_, ?_⟩
  · intro n h
    unfold fmtTok
    rw [if_neg (by omega), if_neg (by omega)]
  · intro n h1 h2
    unfold fmtTok
    rw [if_neg (by omega), if_pos h1]
    exact ⟨(10 * n + 1000 / 2) / 1000 / 10, (10 * n + 1000 / 2) / 1000 % 10,
      Nat.mod_lt _ (by omega), rfl⟩
  · intro n h1
    unfold fmtTok
    rw [if_pos h1]
    exact ⟨(10 * n + 1000000 / 2) / 1000000 / 10, (10 * n + 1000000 / 2) / 1000000 % 10,
      Nat.mod_lt _ (by omega), rfl⟩

/-- Witness for C7 at concrete inputs in each band. -/
theorem c7_fmt_tok_witness :
    fmtTok 7 = toString (7 : Nat) ∧
    (∃ a b : Nat, b < 10 ∧ fmtTok 5000 = (toString a ++ ("." ++ toString b)) ++ "k") ∧
    (∃ a b : Nat, b < 10 ∧ fmtTok 2500000 = (toString a ++ ("." ++ toString b)) ++ "M") :=
  ⟨c7_fmt_tok.2.2.2.1 7 (by omega),
   c7_fmt_tok.2.2.2.2.1 5000 (by omega) (by omega),
   c7_fmt_tok.2.2.2.2.2 2500000 (by omega)⟩

/-- Claim C8: `fmt_reset` on `2025-02-10T18:30:00Z` with the `time` style renders
the local 12-hour clock time — `6:30pm` in UTC, `10:30am` at UTC−8 — and for every
viewer timezone the result is an hour in 1–12 (hence no leading zero), a zero-padded
minute, and a lowercase `am`/`pm` suffix; the empty input and every string that does
not parse as ISO-8601 render as the empty string (totality of these functions is the
never-raises part). -/
theorem c8_fmt_reset :
    fmtReset "2025-02-10T18:30:00Z" "time" 0 = "6:30pm" ∧
    fmtReset "2025-02-10T18:30:00Z" "time" (-480) = "10:30am" ∧
    (∀ off : Int, ∃ h12 m : Nat, ∃ s : String,
      1 ≤ h12 ∧ h12 ≤ 12 ∧ m < 60 ∧ (s = "am" ∨ s = "pm") ∧
      fmtReset "2025-02-10T18:30:00Z" "time" off
        = (toString h12 ++ (":" ++ twoDig m)) ++ s) ∧
    (∀ (style : String) (off : Int), fmtReset "" style off = "") ∧
    (∀ (iso style : String) (off : Int),
      parseIsoChars (replaceZ iso.data) = none → fmtReset iso style off = "") := by
  refine ⟨by decide, by decide, ?_, ?_, ?_⟩
  · intro off
    obtain ⟨h12, m, s, p1, p2, p3, p4, p5⟩ :=
      fmt12h_shape ((Int.emod (localCivilMinutes ⟨2025, 2, 10, 18, 30, 0, some 0⟩ off)
        1440).toNat)
    exact ⟨h12, m, s, p1, p2, p3, p4, p5⟩
  · intro style off
    rfl
  · intro iso style off h
    unfold fmtReset
    split
    · rfl
    · rw [h]

/-- Witness for C8 at concrete inputs: a malformed timestamp and a concrete
timezone for the shape statement. -/
theorem c8_fmt_reset_witness :
    fmtReset "2025-99-99T99:99:99Z" "time" 3 = "" ∧
    (∃ h12 m : Nat, ∃ s : String,
      1 ≤ h12 ∧ h12 ≤ 12 ∧ m < 60 ∧ (s = "am" ∨ s = "pm") ∧
      fmtReset "2025-02-10T18:30:00Z" "time" 120
        = (toString h12 ++ (":" ++ twoDig m)) ++ s) :=
  ⟨c8_fmt_reset.2.2.2.2 "2025-99-99T99:99:99Z" "time" 3 (by decide),
   c8_fmt_reset.2.2.1 120⟩

/-- Claim C9: the overage segment appears among the line-2 items exactly when usage
data is present with `extra_usage.is_enabled` true; the minor-currency amounts are
rendered divided by 100, and the remaining amount `monthly_limit − used_credits` is
rendered with two decimals even when negative (limit 100, used 250 gives
`$-1.50`). -/
theorem c9_extra_usage :
    (∀ (used tot : Nat) (pct off : Int),
      hasExtraSegment (line2Items used tot pct none off) = false) ∧
    (∀ (used tot : Nat) (pct off : Int) (u : UsagePayload),
      u.extra_usage = none →
      hasExtraSegment (line2Items used tot pct (some u) off) = false) ∧
    (∀ (used tot : Nat) (pct off : Int) (u : UsagePayload) (e : ExtraUsage),
      u.extra_usage = some e → e.is_enabled = false →
      hasExtraSegment (line2Items used tot pct (some u) off) = false) ∧
    (∀ (used tot : Nat) (pct off : Int) (u : UsagePayload) (e : ExtraUsage),
      u.extra_usage = some e → e.is_enabled = true →
      extraItem e ∈ line2Items used tot pct (some u) off ∧
      hasExtraSegment (line2Items used tot pct (some u) off) = true) ∧
    extraItem ⟨true, 250, 100⟩ = "extra usage: $-1.50 left" ∧
    fmtCents2 (5000 - 1234) = "37.66" := by
  have hctx : ∀ (used tot : Nat) (pct : Int),
      listPrefixOf ("extra usage:".data) (contextItem used tot pct).data = false := by
    intro used tot pct
    rw [contextItem_head]
    exact listPrefixOf_extra_head _ _ (by decide)
  have hcur : ∀ (w : Option WindowUsage) (off : Int),
      listPrefixOf ("extra usage:".data) (windowStr "current: " w "time" off).data
        = false := by
    intro w off
    rw [windowStr_head 'c' ("urrent: ".data) "current: " rfl]
    exact listPrefixOf_extra_head _ _ (by decide)
  have hwk : ∀ (w : Option WindowUsage) (off : Int),
      listPrefixOf ("extra usage:".data) (windowStr "weekly: " w "datetime" off).data
        = false := by
    intro w off
    rw [windowStr_head 'w' ("eekly: ".data) "weekly: " rfl]
    exact listPrefixOf_extra_head _ _ (by decide)
  refine ⟨?_, ?_, ?_, ?_, by decide, by decide⟩
  · intro used tot pct off
    simp [hasExtraSegment, line2Items, hctx]
  · intro used tot pct off u he
    simp [hasExtraSegment, line2Items, he, hctx, hcur, hwk]
  · intro used tot pct off u e he hen
    simp [hasExtraSegment, line2Items, he, hen, hctx, hcur, hwk]
  · intro used tot pct off u e he hen
    constructor
    · simp [line2Items, he, hen]
    · have : listPrefixOf ("extra usage:".data) (extraItem e).data = true :=
        extraItem_prefixed (fmtCents2 (e.monthly_limit - e.used_credits) ++ " left")
      simp [hasExtraSegment, line2Items, he, hen]
      exact Or.inr (Or.inr (Or.inr this))

/-- Witness for C9 at concrete inputs. -/
theorem c9_extra_usage_witness :
    hasExtraSegment (line2Items 5 10 1 (some ⟨none, none, none⟩) 0) = false ∧
    (extraItem ⟨true, 250, 100⟩ ∈
        line2Items 5 10 1 (some ⟨none, none, some ⟨true, 250, 100⟩⟩) 0 ∧
      hasExtraSegment (line2Items 5 10 1 (some ⟨none, none, some ⟨true, 250, 100⟩⟩) 0)
        = true) ∧
    hasExtraSegment (line2Items 5 10 1 (some ⟨none, none, some ⟨false, 250, 100⟩⟩) 0)
      = false :=
  ⟨c9_extra_usage.2.1 5 10 1 0 ⟨none, none, none⟩ rfl,
   c9_extra_usage.2.2.2.1 5 10 1 0 ⟨none, none, some ⟨true, 250, 100⟩⟩
     ⟨true, 250, 100⟩ rfl rfl,
   c9_extra_usage.2.2.1 5 10 1 0 ⟨none, none, some ⟨false, 250, 100⟩⟩
     ⟨false, 250, 100⟩ rfl rfl⟩

/-- Claim C10: the added/removed line counts appear on line 1 only inside the git
segment — when `git_info` is empty, line 1 is just the model and path segments,
whatever the line counters hold; when `git_info` is non-empty and a counter is
non-zero, the third item is the git segment joined with the counts piece. -/
theorem c10_lines_segment :
    (∀ (m p : String) (a r : Nat),
      line1Items m p "" a r = [WHITE ++ m ++ RESET, p]) ∧
    (∀ (m p g : String) (a r : Nat), g ≠ "" → (a ≠ 0 ∨ r ≠ 0) →
      line1Items m p g a r = [WHITE ++ m ++ RESET, p,
        g ++ SEP ++ (GREEN ++ "+" ++ toString a ++ RESET ++ "/"
          ++ RED ++ "-" ++ toString r ++ RESET)]) := by
  constructor
  · intro m p a r
    rfl
  · intro m p g a r hg har
    unfold line1Items
    rw [if_pos hg, if_pos har]
    rfl

/-- Witness for C10: with an empty git segment the counts are dropped even when
non-zero, and with a git segment present they are joined to it. -/
theorem c10_lines_segment_witness :
    line1Items "Opus" "~/proj" "" 3 1 = [WHITE ++ "Opus" ++ RESET, "~/proj"] ∧
    line1Items "Opus" "~/proj" "main" 3 1 = [WHITE ++ "Opus" ++ RESET, "~/proj",
      "main" ++ SEP ++ (GREEN ++ "+" ++ toString 3 ++ RESET ++ "/"
        ++ RED ++ "-" ++ toString 1 ++ RESET)] :=
  ⟨c10_lines_segment.1 "Opus" "~/proj" 3 1,
   c10_lines_segment.2 "Opus" "~/proj" "main" 3 1 (by decide) (Or.inl (by decide))⟩

end Statusline
